import Mathlib

/-!
Shallow embedding of `src/concept.js` (class `MechanicalVRExperience`): a
Babylon.js scene in which meshes are activated by pointer picking or a VR
controller trigger, producing a particle burst, a spatial sound and a
`setTimeout`-based transient transform change that is later reverted.

Modelling conventions:
* Times are integer milliseconds; `setTimeout(fn, d)` becomes a pending
  `(now + d, action)` entry, fired in fire-time order (insertion order on
  ties) by `advanceTo`, which simulates letting wall-clock time pass.
* Lengths, scale factors and colour channels are exact fixed-point integers
  in hundredths of the source value (every numeric constant in the source
  has at most two decimal places: `0.02` is stored as `2`, `1.2` as `120`,
  `0.15` as `15`), so all state arithmetic is exact integer arithmetic.
* `particleSystem.emitter = mesh.position` aliases the mesh's position
  vector, so the emitter is tracked by the owning mesh's name rather than by
  copied coordinates.  The world x/z coordinates of the ring of mechanical
  cylinders (`Math.cos`/`Math.sin` of the ring angle, irrational reals) are
  read by no modelled operation and are not stored; the button press axis
  (`position.z`, mutated by `onButtonPressed`) is tracked exactly.
* Rotation values of the mechanical looping animation are stored as rational
  coefficients of pi: the source keyframe value `Math.PI * 2` is the
  coefficient `2`, and equality modulo 2*pi of rotations is equality modulo
  2 of coefficients.
* Fallible JavaScript steps surface as an `Option JsErr` component: calling
  an undefined member is a `TypeError`; mutations performed before the throw
  persist, as in JavaScript.
-/

namespace MechanicalVR

/-- A 3-vector standing in for `BABYLON.Vector3` / `Color3`, components in
fixed-point hundredths of the source value. -/
structure Vec3 where
  x : ℤ
  y : ℤ
  z : ℤ
deriving DecidableEq, Repr

/-- The default mesh scaling `(1, 1, 1)`; also the value the source's revert
`setTimeout` writes back (`new BABYLON.Vector3(1, 1, 1)`). -/
def unitScale : Vec3 := ⟨100, 100, 100⟩

/-- Palette constant `COLORS.primaryDark = Color3(0.15, 0.15, 0.17)`. -/
def colorPrimaryDark : Vec3 := ⟨15, 15, 17⟩

/-- Palette constant `COLORS.metallic = Color3(0.82, 0.78, 0.73)`. -/
def colorMetallic : Vec3 := ⟨82, 78, 73⟩

/-- Palette constant `COLORS.accent = Color3(0.35, 0.35, 0.38)`. -/
def colorAccent : Vec3 := ⟨35, 35, 38⟩

/-- The three materials built by `createMaterials`. -/
inductive MaterialSpec
  | pbr (metallic roughness : ℤ) (albedo : Vec3)
  | standard (emissive : Vec3)
  | shader (vertexName fragmentName : String)
deriving DecidableEq, Repr

/-- Configuration of the single `BABYLON.ParticleSystem` built by
`setupParticleSystems`. -/
structure ParticleConfig where
  capacity : Nat
  color1 : Vec3
  color2 : Vec3
  colorDead : Vec3
  minSize : ℤ
  maxSize : ℤ
  minLifeTime : ℤ
  maxLifeTime : ℤ
  emitRate : ℤ
deriving DecidableEq, Repr

/-- The bodies of the two `setTimeout` callbacks in the source:
`() => mesh.scaling = Vector3(1,1,1)` (line 283) and
`() => button.position.z += 0.02` (line 290). -/
inductive TimeoutAction
  | revertScaling (mesh : String)
  | revertButtonZ (mesh : String)
deriving DecidableEq, Repr

/-- Observable playback requests made to the external particle/audio
collaborators by `onMechanicalElementActivated`: repositioning+starting the
shared particle system at a mesh, and creating+playing a spatial sound
attached to a mesh. -/
inductive EffectReq
  | particleStart (emitterMesh : String)
  | soundPlay (attachedMesh : String)
deriving DecidableEq, Repr

/-- The pick callback registered on a mesh's `ActionManager`
(`OnPickTrigger`): mechanical cylinders call `onMechanicalElementActivated`,
buttons call `onButtonPressed`; meshes without an `ActionManager` (ground,
radar, panel) have none. -/
inductive PickHandler
  | mechanicalActivated
  | buttonPressed
deriving DecidableEq, Repr

/-- Per-mesh state: press-axis coordinate, scaling, assigned material
(`none` models JavaScript `undefined`), the pick handler, and the keys of an
attached looping animation (rational coefficients of pi). -/
structure MeshState where
  positionZ : ℤ
  scaling : Vec3
  material : Option String
  pickHandler : Option PickHandler
  animKeys : Option (List (ℚ × ℚ))
deriving DecidableEq, Repr

/-- Error conditions: `typeError` is the JavaScript `TypeError` raised by
using an undefined value; `notFound` is the spec's `NotFound` condition
(included so theorems can state that the code never produces it). -/
inductive JsErr
  | typeError (msg : String)
  | notFound
deriving DecidableEq, Repr

/-- Lookup in a string-keyed association list, mirroring `Map.get`:
`none` models the `undefined` result for an absent key. -/
def mapGet {α : Type} : List (String × α) → String → Option α
  | [], _ => none
  | (k, v) :: rest, key => if k = key then some v else mapGet rest key

/-- Update the value at a key, leaving absent keys alone.  The handlers only
ever mutate meshes that were registered during construction. -/
def mapUpdate {α : Type} : List (String × α) → String → (α → α) → List (String × α)
  | [], _, _ => []
  | (k, v) :: rest, key, f =>
      if k = key then (k, f v) :: rest else (k, v) :: mapUpdate rest key f

/-- The mutable state of the running scene. -/
structure World where
  meshes : List (String × MeshState)
  materials : List (String × MaterialSpec)
  particleSystems : List (String × ParticleConfig)
  particleEmitterRef : Option String
  timeouts : List (ℤ × TimeoutAction)
  requests : List EffectReq
  now : ℤ
deriving DecidableEq, Repr

/-- Effect of `setTimeout(fn, delay)`: record a pending action at absolute
time `now + delay`. -/
def scheduleTimeout (w : World) (delay : ℤ) (act : TimeoutAction) : World :=
  { w with timeouts := w.timeouts ++ [(w.now + delay, act)] }

/-- Write a mesh's `scaling` field. -/
def setMeshScaling (w : World) (m : String) (s : Vec3) : World :=
  { w with meshes := mapUpdate w.meshes m (fun ms => { ms with scaling := s }) }

/-- Apply a function to a mesh's `position.z`. -/
def updateMeshZ (w : World) (m : String) (f : ℤ → ℤ) : World :=
  { w with meshes := mapUpdate w.meshes m (fun ms => { ms with positionZ := f ms.positionZ }) }

/-- Run a fired `setTimeout` callback body. -/
def applyTimeout (w : World) : TimeoutAction → World
  | .revertScaling m => setMeshScaling w m unitScale
  | .revertButtonZ m => updateMeshZ w m (fun z => z + 2)

/-- Earliest fire time among pending timeouts. -/
def earliestTime : List (ℤ × TimeoutAction) → Option ℤ
  | [] => none
  | (q, _) :: rest =>
    match earliestTime rest with
    | none => some q
    | some m => some (min q m)

/-- Remove the first pending entry with the given fire time, returning the
remaining queue (relative order preserved) and the removed action. -/
def removeFirstAt (q : ℤ) : List (ℤ × TimeoutAction) → List (ℤ × TimeoutAction) × Option TimeoutAction
  | [] => ([], none)
  | (q', a) :: rest =>
    if q' = q then (rest, some a)
    else
      let p := removeFirstAt q rest
      ((q', a) :: p.1, p.2)

/-- Fire every timeout due by time `t`, earliest fire time first (insertion
order on ties, as the event loop does), then set the clock to `t`.  The fuel
is the queue length: each step removes one entry and fired callbacks
schedule nothing. -/
def fireDue (w : World) (t : ℤ) : Nat → World
  | 0 => { w with now := t }
  | fuel + 1 =>
    match earliestTime w.timeouts with
    | none => { w with now := t }
    | some q =>
      if q ≤ t then
        match removeFirstAt q w.timeouts with
        | (rest, some act) => fireDue (applyTimeout { w with timeouts := rest } act) t fuel
        | (_, none) => { w with now := t }
      else { w with now := t }

/-- Let simulated wall-clock time pass until `t`. -/
def advanceTo (w : World) (t : ℤ) : World := fireDue w t w.timeouts.length

/-- Source lines 264-286.  `onMechanicalElementActivated(mesh)`: look up the
shared particle system (`Map.get('main')`, `undefined` if absent, in which
case the subsequent `.emitter` assignment throws a `TypeError`), reposition
and start it at the mesh, create and play a new spatial sound attached to
the mesh, set the mesh's scaling to `(1.2, 1.2, 1.2)` (stored as 120) and
schedule a revert to `(1, 1, 1)` (stored as 100) after 200 ms. -/
def onMechanicalElementActivated (w : World) (meshName : String) : World × Option JsErr :=
  match mapGet w.particleSystems "main" with
  | none => (w, some (JsErr.typeError "cannot set properties of undefined"))
  | some _ =>
    let w := { w with
      particleEmitterRef := some meshName,
      requests := w.requests ++ [EffectReq.particleStart meshName, EffectReq.soundPlay meshName] }
    let w := setMeshScaling w meshName ⟨120, 120, 120⟩
    let w := scheduleTimeout w 200 (TimeoutAction.revertScaling meshName)
    (w, none)

/-- Source lines 288-296.  `onButtonPressed(button)`: press the button in
(`position.z -= 0.02`, stored as `-2`), schedule the press-out (`+= 0.02`,
stored as `+2`) after 100 ms,
then trigger the shared effect path `onMechanicalElementActivated(button)`. -/
def onButtonPressed (w : World) (meshName : String) : World × Option JsErr :=
  let w := updateMeshZ w meshName (fun z => z - 2)
  let w := scheduleTimeout w 100 (TimeoutAction.revertButtonZ meshName)
  onMechanicalElementActivated w meshName

/-- A pointer pick on a named mesh: the `ActionManager` `OnPickTrigger`
callback registered on that mesh runs, if any; picking a mesh without an
action manager (ground, radar, panel) does nothing. -/
def pointerPick (w : World) (meshName : String) : World × Option JsErr :=
  match mapGet w.meshes meshName with
  | none => (w, none)
  | some ms =>
    match ms.pickHandler with
    | none => (w, none)
    | some PickHandler.mechanicalActivated => onMechanicalElementActivated w meshName
    | some PickHandler.buttonPressed => onButtonPressed w meshName

/-- Source lines 80-108, `createMaterials`: the three named materials placed
in the `materials` map. -/
def createMaterials : List (String × MaterialSpec) :=
  [("metallic", MaterialSpec.pbr 80 30 colorMetallic),
   ("emissive", MaterialSpec.standard colorAccent),
   ("geometric", MaterialSpec.shader "geometric" "geometric")]

/-- The value of `this.materials.get(id)` used as a material reference:
`some id` when the key is present (the shared material object), `none`
(JavaScript `undefined`) when it is not.  No existence check is performed
anywhere in the source. -/
def materialRefOf (mats : List (String × MaterialSpec)) (id : String) : Option String :=
  (mapGet mats id).map (fun _ => id)

/-- Source lines 158-161: the keyframes `{0: 0, 100: Math.PI * 2}` of each
mechanical cylinder's looping `rotation.y` animation, values as rational
coefficients of pi. -/
def mechanicalAnimKeys : List (ℚ × ℚ) := [(0, 0), (100, 2)]

/-- Source lines 132-175, `createMechanicalElements`: eight cylinders
`mechanical0` .. `mechanical7`, metallic material, looping rotation
animation, `ActionManager` invoking `onMechanicalElementActivated`.  (Their
ring x/z placement uses `Math.cos`/`Math.sin` and is read by nothing we
verify; see the header comment.) -/
def createMechanicalElements (mats : List (String × MaterialSpec)) : List (String × MeshState) :=
  (List.range 8).map (fun i =>
    ("mechanical" ++ toString i,
     { positionZ := 0
       scaling := unitScale
       material := materialRefOf mats "metallic"
       pickHandler := some PickHandler.mechanicalActivated
       animKeys := some mechanicalAnimKeys }))

/-- Source lines 207-210: the ten button grid positions on the panel. -/
def buttonPositions : List (ℤ × ℤ) :=
  [(-70, 20), (-35, 20), (0, 20), (35, 20), (70, 20),
   (-70, -20), (-35, -20), (0, -20), (35, -20), (70, -20)]

/-- Source lines 206-231, `createControlButtons`: one cylinder `button<i>`
per grid position, parented to the panel at local `position.z = 0.1`
(stored as 10),
emissive material, `ActionManager` invoking `onButtonPressed`. -/
def createControlButtons (mats : List (String × MaterialSpec)) : List (String × MeshState) :=
  buttonPositions.enum.map (fun p =>
    ("button" ++ toString p.1,
     { positionZ := 10
       scaling := unitScale
       material := materialRefOf mats "emissive"
       pickHandler := some PickHandler.buttonPressed
       animKeys := none }))

/-- Source lines 110-130, `createEnvironment`: ground (metallic material, no
action manager), the eight mechanical cylinders, the radar disc (its own
fresh `radarMat` standard material, no action manager), the panel (metallic,
no action manager) and its buttons, in creation order. -/
def createEnvironmentMeshes (mats : List (String × MaterialSpec)) : List (String × MeshState) :=
  [("ground",
    { positionZ := 0, scaling := unitScale, material := materialRefOf mats "metallic",
      pickHandler := none, animKeys := none })] ++
  createMechanicalElements mats ++
  [("radar",
    { positionZ := 0, scaling := unitScale, material := some "radarMat",
      pickHandler := none, animKeys := none }),
   ("panel",
    { positionZ := -100, scaling := unitScale, material := materialRefOf mats "metallic",
      pickHandler := none, animKeys := none })] ++
  createControlButtons mats

/-- Source lines 233-249, `setupParticleSystems`: the single shared particle
system stored under the key `"main"`. -/
def mainParticleSystem : ParticleConfig :=
  { capacity := 2000
    color1 := colorMetallic
    color2 := colorAccent
    colorDead := colorPrimaryDark
    minSize := 10
    maxSize := 30
    minLifeTime := 30
    maxLifeTime := 150
    emitRate := 10000 }

/-- The world as it stands after `createMaterials` and `createEnvironment`
have run inside `initialize()`: all meshes registered, the `"main"` particle
system registered, nothing pending, clock at 0. -/
def builtWorld : World :=
  { meshes := createEnvironmentMeshes createMaterials
    materials := createMaterials
    particleSystems := [("main", mainParticleSystem)]
    particleEmitterRef := none
    timeouts := []
    requests := []
    now := 0 }

/-- The application after `initialize()`: the scene world, whether the XR
controller subscriptions of `setupVR` were attached, and whether the render
loop was started. -/
structure App where
  world : World
  controllersAttached : Bool
  renderLoopStarted : Bool
deriving DecidableEq, Repr

/-- `BABYLON.WebXRDefaultExperience.CreateAsync`: succeeds when the XR
runtime is available, rejects otherwise. -/
def createXRSession (xrAvailable : Bool) : Except String Unit :=
  if xrAvailable then Except.ok () else Except.error "WebXR not available"

/-- Source lines 60-78, `setupVR`: try to create the XR session and attach
the controller subscriptions; on failure the exception is caught locally and
only logged (`console.log('WebXR not available')`), leaving the app in
pointer-only mode. -/
def setupVRStep (xrAvailable : Bool) (a : App) : App :=
  match createXRSession xrAvailable with
  | Except.ok _ => { a with controllersAttached := true }
  | Except.error _ => a

/-- Source lines 28-58, `initialize()`: build materials and environment,
attempt VR setup (failures caught inside `setupVR`), start the render loop.
The `Option JsErr` component is the exception escaping `initialize`, `none`
when it completes normally. -/
def initializeApp (xrAvailable : Bool) : App × Option JsErr :=
  let a : App := { world := builtWorld, controllersAttached := false, renderLoopStarted := false }
  let a := setupVRStep xrAvailable a
  ({ a with renderLoopStarted := true }, none)

/-- The method names defined on class `MechanicalVRExperience` (source lines
5-319), transcribed from the class body. -/
def definedMethodNames : List String :=
  ["constructor", "initialize", "setupVR", "createMaterials", "createEnvironment",
   "createMechanicalElements", "createRadarDisplay", "createControlPanel",
   "createControlButtons", "setupParticleSystems", "setupControllerInteractions",
   "onMechanicalElementActivated", "onButtonPressed", "createSpotlights"]

/-- JavaScript method dispatch `this.<name>(mesh)`: the two mesh-handler
methods run; a name that is no property of the instance is `undefined`, and
calling it raises a `TypeError`.  (Other defined methods take no mesh and
are never dispatched to from the interaction code.) -/
def jsInvoke (w : World) (name : String) (meshName : String) : World × Option JsErr :=
  if name = "onMechanicalElementActivated" then onMechanicalElementActivated w meshName
  else if name = "onButtonPressed" then onButtonPressed w meshName
  else if definedMethodNames.contains name then (w, none)
  else (w, some (JsErr.typeError ("this." ++ name ++ " is not a function")))

/-- Source lines 251-262, `setupControllerInteractions`: the callback added
to `onTriggerStateChangedObservable`.  `pick` is the result of
`scene.pickWithRay` (the picked mesh's name, or `none` for a miss): on a
notification with `eventData.pressed` and a hit, the handler dispatches to
`this.onControllerInteraction(pick.pickedMesh)`. -/
def controllerTriggerNotification (w : World) (pressed : Bool) (pick : Option String) :
    World × Option JsErr :=
  if pressed then
    match pick with
    | none => (w, none)
    | some m => jsInvoke w "onControllerInteraction" m
  else (w, none)

/-- The `eventData.pressed` values delivered by
`onTriggerStateChangedObservable` for a per-frame sampled trigger state:
one notification per state change, none while the state is held. -/
def triggerNotificationStream (prev : Bool) : List Bool → List Bool
  | [] => []
  | b :: rest =>
    if b = prev then triggerNotificationStream prev rest
    else b :: triggerNotificationStream b rest

/-- Number of false-to-true transitions in a sampled trigger sequence,
given the preceding state. -/
def risingEdges (prev : Bool) : List Bool → Nat
  | [] => 0
  | b :: rest => (if b && !prev then 1 else 0) + risingEdges b rest

/-- Accumulated outcome of running the controller-trigger callback over a
notification stream: final world, number of dispatch attempts
(`this.onControllerInteraction(...)` call sites reached), number of faults. -/
structure CtrlRun where
  world : World
  dispatchAttempts : Nat
  faults : Nat
deriving DecidableEq, Repr

/-- Process one trigger notification (the body added by
`setupControllerInteractions`), with a fixed ray-cast outcome `pick`. -/
def processNotification (pick : Option String) (r : CtrlRun) (pressedVal : Bool) : CtrlRun :=
  if pressedVal then
    match pick with
    | none => r
    | some m =>
      let res := jsInvoke r.world "onControllerInteraction" m
      { world := res.1
        dispatchAttempts := r.dispatchAttempts + 1
        faults := r.faults + (if res.2.isSome then 1 else 0) }
  else r

/-- Run a whole press/hold/release trigger sequence (per-frame samples,
initial state released) through the controller callback. -/
def runControllerFrames (w : World) (pick : Option String) (frames : List Bool) : CtrlRun :=
  (triggerNotificationStream false frames).foldl (processNotification pick) ⟨w, 0, 0⟩

/-- Controller input reaches the app only if `setupVR` attached the
controller subscriptions; otherwise the trigger stream is never observed. -/
def runControllerInput (a : App) (pick : Option String) (frames : List Bool) : CtrlRun :=
  if a.controllersAttached then runControllerFrames a.world pick frames else ⟨a.world, 0, 0⟩

/-- Linear interpolation over an ordered keyframe list (Babylon float
animation between surrounding keys). -/
def interpKeys : List (ℚ × ℚ) → ℚ → ℚ
  | [], _ => 0
  | [k], _ => k.2
  | k1 :: k2 :: rest, f =>
    if f ≤ k2.1 then k1.2 + (k2.2 - k1.2) * ((f - k1.1) / (k2.1 - k1.1))
    else interpKeys (k2 :: rest) f

/-- Loop-relative frame for `ANIMATIONLOOPMODE_CYCLE` over the 0..100 clip:
the frame wraps modulo the clip duration. -/
def cycleFrame (f : ℚ) : ℚ := f - 100 * ⌊f / 100⌋

/-- The animated `rotation.y` of a mechanical cylinder at absolute frame
`f` (as a coefficient of pi), per the looping clip of
`createMechanicalElements`. -/
def mechanicalRotationY (f : ℚ) : ℚ := interpKeys mechanicalAnimKeys (cycleFrame f)

/-- Number of pending scale-revert timers for a mesh: the source's only
record of an effect's scheduled reversion, hence the in-flight marker. -/
def pendingScaleReverts (w : World) (m : String) : Nat :=
  w.timeouts.countP (fun p => decide (p.2 = TimeoutAction.revertScaling m))

/-- Number of outstanding transient-feedback reversion timers (of either
kind) for a mesh. -/
def outstandingFeedbacks (w : World) (m : String) : Nat :=
  w.timeouts.countP (fun p =>
    decide (p.2 = TimeoutAction.revertScaling m ∨ p.2 = TimeoutAction.revertButtonZ m))

/-- Number of spatial-sound playback requests made so far; each pass through
the effect pipeline (`onMechanicalElementActivated`) makes exactly one, so
this counts pipeline activations. -/
def soundRequestCount (w : World) : Nat :=
  w.requests.countP (fun r => match r with | EffectReq.soundPlay _ => true | _ => false)

/-- The operation pattern `mesh.material = this.materials.get(id)` (source
lines 117, 147, 200, 220): the registry lookup result — `undefined` for an
unknown id — is assigned with no existence check, and execution continues
normally. -/
def assignMaterialFromRegistry (w : World) (meshName id : String) : World × Option JsErr :=
  let meshes := mapUpdate w.meshes meshName
    (fun ms => { ms with material := materialRefOf w.materials id })
  ({ w with meshes := meshes }, none)

/-- One activate-then-wait cycle: pick the mesh (running its registered
activation handler, if any) and then let the full 200 ms feedback duration
elapse. -/
def activateThenWait (w : World) (m : String) : World :=
  advanceTo (pointerPick w m).1 (w.now + 200)

/-- A sequence of activate-then-wait cycles. -/
def activationCycles : World → List String → World
  | w, [] => w
  | w, m :: rest => activationCycles (activateThenWait w m) rest

/-- Whether a ray-cast outcome hit a mesh that is interactive, i.e. has an
`ActionManager` pick handler registered. -/
def isInteractiveHit (w : World) (pick : Option String) : Bool :=
  match pick with
  | none => false
  | some m =>
    match mapGet w.meshes m with
    | none => false
    | some ms => ms.pickHandler.isSome

/-- The shape of a scheduled transient feedback, forgetting which mesh it
targets: a scale revert (the shared effect path) or a button press-out. -/
def transientShape : TimeoutAction → String
  | TimeoutAction.revertScaling _ => "scalingRevert"
  | TimeoutAction.revertButtonZ _ => "pressRevert"

/-- Scenario world: `mechanical0` was activated at time 0 and 100 ms have
passed, so its effect is still in flight (scale pulse applied, reversion
timer pending). -/
def inFlightWorld : World :=
  advanceTo (onMechanicalElementActivated builtWorld "mechanical0").1 100

/-- Scenario world: `mechanical0` is activated a second time at time 100,
while the first effect is still in flight. -/
def secondActivationWorld : World :=
  (onMechanicalElementActivated inFlightWorld "mechanical0").1

/-- Scenario world: after the second (overlapping) activation, time passes
to 300 ms, beyond both scheduled reversions. -/
def afterSecondWaitWorld : World := advanceTo secondActivationWorld 300

/-- Scenario world: `button0` is pressed at time 0 and again at time 50,
while the first press's reversions are still pending. -/
def doublePressWorld : World :=
  (onButtonPressed (advanceTo (onButtonPressed builtWorld "button0").1 50) "button0").1

/-- Scenario run: the controller trigger is pressed at frame 0 and held for
three frames while the ray hits the interactive mesh `mechanical0`. -/
def holdTriggerRun : CtrlRun :=
  runControllerFrames builtWorld (some "mechanical0") [true, true, true]

/-- Scenario world: `button0` has been pressed once at time 0, so its two
reversion timers are still pending. -/
def pressedOnceWorld : World := (onButtonPressed builtWorld "button0").1

/-! ### Association-list lemmas -/

theorem mapGet_mem {α : Type} (l : List (String × α)) (k : String) (v : α)
    (h : mapGet l k = some v) : (k, v) ∈ l := by
  induction l with
  | nil => simp [mapGet] at h
  | cons p rest ih =>
    obtain ⟨k', v'⟩ := p
    rw [mapGet] at h
    by_cases hk : k' = k
    · subst hk
      rw [if_pos rfl] at h
      obtain rfl := Option.some.inj h
      exact List.mem_cons_self _ _
    · rw [if_neg hk] at h
      exact List.mem_cons_of_mem _ (ih h)

theorem mapUpdate_mapUpdate {α : Type} (l : List (String × α)) (k : String) (f g : α → α) :
    mapUpdate (mapUpdate l k f) k g = mapUpdate l k (fun v => g (f v)) := by
  induction l with
  | nil => rfl
  | cons p rest ih =>
    obtain ⟨k', v'⟩ := p
    by_cases hk : k' = k
    · simp [mapUpdate, hk]
    · simp [mapUpdate, hk, ih]

theorem mapUpdate_eq_of_get {α : Type} (l : List (String × α)) (k : String) (v : α) (f : α → α)
    (h : mapGet l k = some v) (hf : f v = v) : mapUpdate l k f = l := by
  induction l with
  | nil => rfl
  | cons p rest ih =>
    obtain ⟨k', v'⟩ := p
    by_cases hk : k' = k
    · subst hk
      rw [mapGet, if_pos rfl] at h
      obtain rfl := Option.some.inj h
      simp [mapUpdate, hf]
    · rw [mapGet, if_neg hk] at h
      simp [mapUpdate, hk, ih h]

theorem mapGet_mapUpdate_self {α : Type} (l : List (String × α)) (k : String) (f : α → α) :
    mapGet (mapUpdate l k f) k = (mapGet l k).map f := by
  induction l with
  | nil => rfl
  | cons p rest ih =>
    obtain ⟨k', v'⟩ := p
    by_cases hk : k' = k
    · simp [mapUpdate, mapGet, hk]
    · simp [mapUpdate, mapGet, hk, ih]

/-! ### Controller-path lemmas -/

theorem jsInvoke_onControllerInteraction (w : World) (m : String) :
    jsInvoke w "onControllerInteraction" m =
      (w, some (JsErr.typeError "this.onControllerInteraction is not a function")) := by
  simp [jsInvoke, definedMethodNames]

theorem controllerNotification_world (w : World) (pressed : Bool) (pick : Option String) :
    (controllerTriggerNotification w pressed pick).1 = w := by
  cases pressed with
  | false => rfl
  | true =>
    cases pick with
    | none => rfl
    | some m => simp [controllerTriggerNotification, jsInvoke_onControllerInteraction]

theorem foldl_processNotification (m : String) (notifs : List Bool) (r : CtrlRun) :
    notifs.foldl (processNotification (some m)) r =
      ⟨r.world, r.dispatchAttempts + notifs.countP (fun b => b),
        r.faults + notifs.countP (fun b => b)⟩ := by
  induction notifs generalizing r with
  | nil => cases r; simp
  | cons b rest ih =>
    cases b with
    | false =>
      rw [List.foldl_cons, ih]
      simp [processNotification, List.countP_cons]
    | true =>
      rw [List.foldl_cons, ih]
      simp [processNotification, jsInvoke_onControllerInteraction, List.countP_cons]
      omega

theorem countTrue_notificationStream (prev : Bool) (fs : List Bool) :
    (triggerNotificationStream prev fs).countP (fun b => b) = risingEdges prev fs := by
  induction fs generalizing prev with
  | nil => rfl
  | cons b rest ih =>
    by_cases h : b = prev
    · subst h
      simp [triggerNotificationStream, risingEdges, ih]
    · cases b with
      | false =>
        have hp : prev = true := by
          cases prev with
          | false => exact absurd rfl h
          | true => rfl
        subst hp
        simp [triggerNotificationStream, risingEdges, ih]
      | true =>
        have hp : prev = false := by
          cases prev with
          | false => rfl
          | true => exact absurd rfl h
        subst hp
        simp [triggerNotificationStream, risingEdges, ih, List.countP_cons]
        omega

/-! ### Clip-evaluation lemma -/

theorem cycleFrame_add_100 (f : ℚ) : cycleFrame (f + 100) = cycleFrame f := by
  unfold cycleFrame
  have h : (f + 100) / 100 = f / 100 + 1 := by ring
  rw [h, Int.floor_add_one]
  push_cast
  ring

/-! ### Timeout-sweep lemmas -/
theorem applyTimeout_timeouts (w : World) (a : TimeoutAction) :
    (applyTimeout w a).timeouts = w.timeouts := by
  cases a <;> simp [applyTimeout, setMeshScaling, updateMeshZ]

theorem applyTimeout_now (w : World) (a : TimeoutAction) :
    (applyTimeout w a).now = w.now := by
  cases a <;> simp [applyTimeout, setMeshScaling, updateMeshZ]

theorem applyTimeout_set_timeouts_meshes (w : World) (a : TimeoutAction)
    (ts : List (ℤ × TimeoutAction)) :
    (applyTimeout { w with timeouts := ts } a).meshes = (applyTimeout w a).meshes := by
  cases a <;> simp [applyTimeout, setMeshScaling, updateMeshZ]

theorem advanceTo_nil (w : World) (t : ℤ) (hw : w.timeouts = []) :
    advanceTo w t = { w with now := t } := by
  rw [advanceTo, hw]
  simp [fireDue, hw]

theorem advanceTo_one (w : World) (q : ℤ) (a : TimeoutAction) (t : ℤ)
    (hw : w.timeouts = [(q, a)]) (hqt : q ≤ t) :
    (advanceTo w t).meshes = (applyTimeout w a).meshes ∧
    (advanceTo w t).timeouts = [] ∧ (advanceTo w t).now = t := by
  have hlen : w.timeouts.length = 1 := by rw [hw]; rfl
  rw [advanceTo, hlen]
  simp [fireDue, hw, earliestTime, removeFirstAt, hqt,
    applyTimeout_set_timeouts_meshes, applyTimeout_timeouts]

theorem applyTimeout_meshes_congr (w w' : World) (a : TimeoutAction)
    (h : w.meshes = w'.meshes) :
    (applyTimeout w a).meshes = (applyTimeout w' a).meshes := by
  cases a <;> simp [applyTimeout, setMeshScaling, updateMeshZ, h]

theorem advanceTo_two (w : World) (q1 q2 : ℤ) (a1 a2 : TimeoutAction) (t : ℤ)
    (hw : w.timeouts = [(q1, a1), (q2, a2)]) (h12 : q1 ≤ q2) (h2t : q2 ≤ t) :
    (advanceTo w t).meshes = (applyTimeout (applyTimeout w a1) a2).meshes ∧
    (advanceTo w t).timeouts = [] ∧ (advanceTo w t).now = t := by
  have hlen : w.timeouts.length = 2 := by rw [hw]; rfl
  have hmin : min q1 q2 = q1 := min_eq_left h12
  have h1t : q1 ≤ t := le_trans h12 h2t
  rw [advanceTo, hlen]
  simp [fireDue, hw, earliestTime, removeFirstAt, hmin, h1t, h2t,
    applyTimeout_set_timeouts_meshes, applyTimeout_timeouts]
  exact applyTimeout_meshes_congr _ _ _ rfl



theorem restore_scale (v : MeshState) (hv : v.scaling = unitScale) :
    ({ v with scaling := unitScale } : MeshState) = v := by
  cases v; simp_all

theorem activateThenWait_preserves (w : World) (m : String)
    (hq : w.timeouts = []) (hs : ∀ p ∈ w.meshes, p.2.scaling = unitScale) :
    (activateThenWait w m).meshes = w.meshes ∧ (activateThenWait w m).timeouts = [] := by
  unfold activateThenWait
  cases hget : mapGet w.meshes m with
  | none =>
    rw [show (pointerPick w m).1 = w by simp [pointerPick, hget]]
    rw [advanceTo_nil w _ hq]
    exact ⟨rfl, hq⟩
  | some ms =>
    have hscale : ms.scaling = unitScale := hs (m, ms) (mapGet_mem _ _ _ hget)
    cases hph : ms.pickHandler with
    | none =>
      rw [show (pointerPick w m).1 = w by simp [pointerPick, hget, hph]]
      rw [advanceTo_nil w _ hq]
      exact ⟨rfl, hq⟩
    | some ph =>
      cases ph with
      | mechanicalActivated =>
        rw [show (pointerPick w m).1 = (onMechanicalElementActivated w m).1 by
          simp [pointerPick, hget, hph]]
        cases hmain : mapGet w.particleSystems "main" with
        | none =>
          rw [show (onMechanicalElementActivated w m).1 = w by
            simp [onMechanicalElementActivated, hmain]]
          rw [advanceTo_nil w _ hq]
          exact ⟨rfl, hq⟩
        | some cfg =>
          have hts : (onMechanicalElementActivated w m).1.timeouts =
              [(w.now + 200, TimeoutAction.revertScaling m)] := by
            simp [onMechanicalElementActivated, hmain, scheduleTimeout, setMeshScaling, hq]
          have hmesh : (onMechanicalElementActivated w m).1.meshes =
              mapUpdate w.meshes m (fun v => { v with scaling := ⟨120, 120, 120⟩ }) := by
            simp [onMechanicalElementActivated, hmain, scheduleTimeout, setMeshScaling]
          have hnow : (onMechanicalElementActivated w m).1.now = w.now := by
            simp [onMechanicalElementActivated, hmain, scheduleTimeout, setMeshScaling]
          obtain ⟨g1, g2, g3⟩ := advanceTo_one (onMechanicalElementActivated w m).1
            (w.now + 200) (TimeoutAction.revertScaling m) (w.now + 200) hts le_rfl
          refine ⟨?_, g2⟩
          rw [g1]
          rw [show (applyTimeout (onMechanicalElementActivated w m).1
              (TimeoutAction.revertScaling m)).meshes =
              mapUpdate (onMechanicalElementActivated w m).1.meshes m
                (fun v => { v with scaling := unitScale }) by
            simp [applyTimeout, setMeshScaling]]
          rw [hmesh, mapUpdate_mapUpdate]
          exact mapUpdate_eq_of_get _ _ ms _ hget (restore_scale ms hscale)
      | buttonPressed =>
        rw [show (pointerPick w m).1 = (onButtonPressed w m).1 by
          simp [pointerPick, hget, hph]]
        cases hmain : mapGet w.particleSystems "main" with
        | none =>
          have hts : (onButtonPressed w m).1.timeouts =
              [(w.now + 100, TimeoutAction.revertButtonZ m)] := by
            simp [onButtonPressed, onMechanicalElementActivated, hmain, updateMeshZ,
              scheduleTimeout, hq]
          have hmesh : (onButtonPressed w m).1.meshes =
              mapUpdate w.meshes m (fun v => { v with positionZ := v.positionZ - 2 }) := by
            simp [onButtonPressed, onMechanicalElementActivated, hmain, updateMeshZ,
              scheduleTimeout]
          obtain ⟨g1, g2, g3⟩ := advanceTo_one (onButtonPressed w m).1
            (w.now + 100) (TimeoutAction.revertButtonZ m) (w.now + 200) hts (by linarith)
          refine ⟨?_, g2⟩
          rw [g1]
          rw [show (applyTimeout (onButtonPressed w m).1
              (TimeoutAction.revertButtonZ m)).meshes =
              mapUpdate (onButtonPressed w m).1.meshes m
                (fun v => { v with positionZ := v.positionZ + 2 }) by
            simp [applyTimeout, updateMeshZ]]
          rw [hmesh, mapUpdate_mapUpdate]
          refine mapUpdate_eq_of_get _ _ ms _ hget ?_
          obtain ⟨z0, s0, mat0, ph0, ak0⟩ := ms
          simp only [MeshState.mk.injEq, and_true]
          ring
        | some cfg =>
          have hts : (onButtonPressed w m).1.timeouts =
              [(w.now + 100, TimeoutAction.revertButtonZ m),
               (w.now + 200, TimeoutAction.revertScaling m)] := by
            simp [onButtonPressed, onMechanicalElementActivated, hmain, updateMeshZ,
              scheduleTimeout, setMeshScaling, hq]
          have hmesh : (onButtonPressed w m).1.meshes =
              mapUpdate (mapUpdate w.meshes m
                (fun v => { v with positionZ := v.positionZ - 2 })) m
                (fun v => { v with scaling := ⟨120, 120, 120⟩ }) := by
            simp [onButtonPressed, onMechanicalElementActivated, hmain, updateMeshZ,
              scheduleTimeout, setMeshScaling]
          obtain ⟨g1, g2, g3⟩ := advanceTo_two (onButtonPressed w m).1
            (w.now + 100) (w.now + 200) (TimeoutAction.revertButtonZ m)
            (TimeoutAction.revertScaling m) (w.now + 200) hts (by linarith) le_rfl
          refine ⟨?_, g2⟩
          rw [g1]
          rw [show (applyTimeout (applyTimeout (onButtonPressed w m).1
              (TimeoutAction.revertButtonZ m)) (TimeoutAction.revertScaling m)).meshes =
              mapUpdate (mapUpdate (onButtonPressed w m).1.meshes m
                (fun v => { v with positionZ := v.positionZ + 2 })) m
                (fun v => { v with scaling := unitScale }) by
            simp [applyTimeout, updateMeshZ, setMeshScaling]]
          rw [hmesh, mapUpdate_mapUpdate, mapUpdate_mapUpdate, mapUpdate_mapUpdate]
          refine mapUpdate_eq_of_get _ _ ms _ hget ?_
          obtain ⟨z0, s0, mat0, ph0, ak0⟩ := ms
          have hs0 : s0 = unitScale := hscale
          simp only [MeshState.mk.injEq, and_true]
          exact ⟨by ring, hs0.symm⟩

/-! ### Claim theorems -/

/-- Claim C1, counterexample.  The claim says a second activation of an
entity while its effect is in flight yields zero additional effect requests
(drop) or exactly one repositioned request (coalesce), never an
uncoordinated overlap with the pending reversion.  In the code, activating
`mechanical0` at time 0 and again at time 100 makes the second activation
issue TWO additional requests (a particle restart and a brand-new second
sound), while leaving TWO reversion timers pending for the same mesh — the
new effect overlaps the first activation's pending reversion. -/
theorem c1_effect_overlap_counterexample :
    secondActivationWorld.requests =
      [EffectReq.particleStart "mechanical0", EffectReq.soundPlay "mechanical0",
       EffectReq.particleStart "mechanical0", EffectReq.soundPlay "mechanical0"] ∧
    secondActivationWorld.requests.length - inFlightWorld.requests.length = 2 ∧
    ¬(secondActivationWorld.requests.length - inFlightWorld.requests.length = 0 ∨
      secondActivationWorld.requests.length - inFlightWorld.requests.length = 1) ∧
    pendingScaleReverts secondActivationWorld "mechanical0" = 2 ∧
    ¬(pendingScaleReverts secondActivationWorld "mechanical0" ≤ 1) := by decide

/-- Claim C1, amended: the code neither drops nor coalesces.  A second
activation of a mesh while its effect is in flight (a scale-revert timer is
pending) completes without error, issues two further effect requests (a
particle reposition+restart and a new sound), and schedules one more
independent reversion timer, leaving at least two reversions pending for
that mesh — an uncoordinated overlap between the new effect and the pending
reversion. -/
theorem c1_effect_overlap_amended (w : World) (m : String)
    (hmain : (mapGet w.particleSystems "main").isSome = true)
    (hflight : 1 ≤ pendingScaleReverts w m) :
    (onMechanicalElementActivated w m).2 = none ∧
    (onMechanicalElementActivated w m).1.requests =
      w.requests ++ [EffectReq.particleStart m, EffectReq.soundPlay m] ∧
    pendingScaleReverts (onMechanicalElementActivated w m).1 m =
      pendingScaleReverts w m + 1 ∧
    2 ≤ pendingScaleReverts (onMechanicalElementActivated w m).1 m := by
  obtain ⟨cfg, hcfg⟩ := Option.isSome_iff_exists.mp hmain
  have h3 : pendingScaleReverts (onMechanicalElementActivated w m).1 m =
      pendingScaleReverts w m + 1 := by
    simp [onMechanicalElementActivated, hcfg, scheduleTimeout, setMeshScaling,
      pendingScaleReverts, List.countP_append, List.countP_cons]
  refine ⟨by simp [onMechanicalElementActivated, hcfg], ?_, h3, by omega⟩
  simp [onMechanicalElementActivated, hcfg, scheduleTimeout, setMeshScaling]

/-- Claim C1, witness: the amended statement applied to the concrete
in-flight world. -/
theorem c1_effect_overlap_witness :
    (onMechanicalElementActivated inFlightWorld "mechanical0").2 = none ∧
    (onMechanicalElementActivated inFlightWorld "mechanical0").1.requests =
      inFlightWorld.requests ++
        [EffectReq.particleStart "mechanical0", EffectReq.soundPlay "mechanical0"] ∧
    pendingScaleReverts (onMechanicalElementActivated inFlightWorld "mechanical0").1
      "mechanical0" = pendingScaleReverts inFlightWorld "mechanical0" + 1 ∧
    2 ≤ pendingScaleReverts (onMechanicalElementActivated inFlightWorld "mechanical0").1
      "mechanical0" :=
  c1_effect_overlap_amended inFlightWorld "mechanical0" (by decide) (by decide)

/-- Claim C2, counterexample.  The claim says activating X snapshots X's
pre-activation transform and that after `feedbackDuration` the transform
equals that snapshot exactly.  In the code no snapshot is taken: activating
`mechanical0` at time 100, while its scale pulse from an activation at time
0 is still applied (scaling 1.2, stored as 120 — the pre-activation value
of the second activation), and waiting past both deadlines leaves scaling
(1,1,1) (stored as 100), not the 1.2 snapshot: the revert writes the
constant unit scale. -/
theorem c2_feedback_roundtrip_counterexample :
    (mapGet inFlightWorld.meshes "mechanical0").map (fun ms => ms.scaling) =
      some ⟨120, 120, 120⟩ ∧
    (mapGet afterSecondWaitWorld.meshes "mechanical0").map (fun ms => ms.scaling) =
      some unitScale ∧
    (⟨120, 120, 120⟩ : Vec3) ≠ unitScale := by decide

/-- Claim C2, amended: the transient feedback reverts to fixed constants
(unit scaling; `+0.02` on the button press axis), not to a snapshot.  When
every activation is followed by a full `feedbackDuration` wait — so no
activation happens mid-flight — and all meshes start at the default unit
scaling, any sequence of activate-then-wait cycles leaves every mesh's
transform equal to its original value and no feedback pending. -/
theorem c2_feedback_roundtrip_amended (w : World) (ms : List String)
    (hq : w.timeouts = []) (hs : ∀ p ∈ w.meshes, p.2.scaling = unitScale) :
    (activationCycles w ms).meshes = w.meshes ∧ (activationCycles w ms).timeouts = [] := by
  induction ms generalizing w with
  | nil => exact ⟨rfl, hq⟩
  | cons m rest ih =>
    obtain ⟨h1, h2⟩ := activateThenWait_preserves w m hq hs
    have hs' : ∀ p ∈ (activateThenWait w m).meshes, p.2.scaling = unitScale := by
      rw [h1]; exact hs
    obtain ⟨g1, g2⟩ := ih (activateThenWait w m) h2 hs'
    constructor
    · show (activationCycles (activateThenWait w m) rest).meshes = w.meshes
      rw [g1, h1]
    · exact g2

/-- Claim C2, witness: three full activate-then-wait cycles (mechanical,
button, mechanical) from the constructed scene restore every transform. -/
theorem c2_feedback_roundtrip_witness :
    (activationCycles builtWorld ["mechanical0", "button0", "mechanical0"]).meshes =
      builtWorld.meshes ∧
    (activationCycles builtWorld ["mechanical0", "button0", "mechanical0"]).timeouts = [] :=
  c2_feedback_roundtrip_amended builtWorld ["mechanical0", "button0", "mechanical0"]
    (by decide) (by decide)

/-- Claim C3, confirmed: the controller-trigger handler dispatches every hit
to `this.onControllerInteraction(pickedMesh)`, no method of that name is
defined anywhere on the class, so the dispatch raises a `TypeError` and
leaves the world untouched — the controller path never reaches
`onMechanicalElementActivated` / `onButtonPressed`. -/
theorem c3_controller_dispatch_undefined :
    "onControllerInteraction" ∉ definedMethodNames ∧
    ∀ (w : World) (m : String),
      controllerTriggerNotification w true (some m) =
        jsInvoke w "onControllerInteraction" m ∧
      jsInvoke w "onControllerInteraction" m =
        (w, some (JsErr.typeError "this.onControllerInteraction is not a function")) :=
  ⟨by decide, fun w m => ⟨rfl, jsInvoke_onControllerInteraction w m⟩⟩

/-- Claim C4, confirmed: on a controller trigger press whose ray misses or
hits a non-interactive mesh, no effect request and no state change is
produced (the world is returned unchanged), and any press that does change
the request log could only have hit an interactive mesh.  (In this code the
second part holds vacuously: the controller path changes no world state at
all, because its dispatch target is undefined.) -/
theorem c4_no_event_without_interactive_hit (w : World) (pick : Option String)
    (h : isInteractiveHit w pick = false) :
    (controllerTriggerNotification w true pick).1 = w ∧
    (controllerTriggerNotification w true pick).1.requests = w.requests ∧
    ∀ pick' : Option String,
      (controllerTriggerNotification w true pick').1.requests ≠ w.requests →
      isInteractiveHit w pick' = true := by
  refine ⟨controllerNotification_world w true pick,
    by rw [controllerNotification_world], ?_⟩
  intro pick' hne
  exact absurd (by rw [controllerNotification_world]) hne

/-- Claim C4, witness: a press whose ray hits the non-interactive ground. -/
theorem c4_no_event_witness :
    (controllerTriggerNotification builtWorld true (some "ground")).1 = builtWorld ∧
    (controllerTriggerNotification builtWorld true (some "ground")).1.requests =
      builtWorld.requests ∧
    ∀ pick' : Option String,
      (controllerTriggerNotification builtWorld true pick').1.requests ≠
        builtWorld.requests →
      isInteractiveHit builtWorld pick' = true :=
  c4_no_event_without_interactive_hit builtWorld (some "ground") (by decide)

/-- Claim C5, counterexample.  The claim says holding the trigger across
several frames produces exactly one ActivationEvent, at the rising edge.
Holding for three frames over the interactive `mechanical0` produces
exactly one dispatch attempt (the rising edge), but ZERO activations reach
the effect pipeline — the attempt faults on the undefined
`onControllerInteraction` — so the count is 0, not 1. -/
theorem c5_rising_edge_counterexample :
    holdTriggerRun.dispatchAttempts = 1 ∧
    soundRequestCount holdTriggerRun.world = 0 ∧
    soundRequestCount holdTriggerRun.world ≠ 1 ∧
    holdTriggerRun.faults = 1 ∧
    holdTriggerRun.world = builtWorld := by decide

/-- Claim C5, amended: the trigger-state-changed subscription fires the
handler body exactly once per rising edge (holding never re-fires), but
every attempt faults on the undefined dispatch target, so zero
ActivationEvents reach the pipeline and the world is unchanged. -/
theorem c5_rising_edge_amended (w : World) (m : String) (frames : List Bool) :
    (runControllerFrames w (some m) frames).dispatchAttempts = risingEdges false frames ∧
    (runControllerFrames w (some m) frames).world = w ∧
    soundRequestCount (runControllerFrames w (some m) frames).world =
      soundRequestCount w := by
  unfold runControllerFrames
  rw [foldl_processNotification]
  exact ⟨by simp [countTrue_notificationStream], rfl, rfl⟩

/-- Claim C6, confirmed: with the XR runtime unavailable, `initialize()`
completes without throwing (the failure is caught inside `setupVR`), the
resulting world is identical to the XR-available one — so pointer picks
behave identically — and, with no controller subscriptions attached, no
controller input is ever observed: zero dispatch attempts and an unchanged
world for every trigger sequence. -/
theorem c6_degraded_pointer_only :
    (initializeApp false).2 = none ∧
    (initializeApp false).1.controllersAttached = false ∧
    (initializeApp false).1.world = (initializeApp true).1.world ∧
    (∀ m : String, pointerPick (initializeApp false).1.world m =
      pointerPick (initializeApp true).1.world m) ∧
    ∀ (pick : Option String) (frames : List Bool),
      runControllerInput (initializeApp false).1 pick frames =
        ⟨(initializeApp false).1.world, 0, 0⟩ :=
  ⟨rfl, rfl, rfl, fun _ => rfl, fun _ _ => rfl⟩

/-- Claim C7, counterexample.  The claim says at most one TransientFeedback
is outstanding per entity, a new activation being ignored or replacing the
pending one.  Pressing `button0` at time 0 and again at time 50 leaves FOUR
reversion timers outstanding for it (nothing ignored, nothing replaced) —
the state machine goes Active to Active without passing through Idle — and
at time 120 the button is still depressed (z = 0.08, stored as 8, not the
resting 0.1, stored as 10) while the second press's reversions are still
pending. -/
theorem c7_transient_overlap_counterexample :
    outstandingFeedbacks doublePressWorld "button0" = 4 ∧
    ¬(outstandingFeedbacks doublePressWorld "button0" ≤ 1) ∧
    (mapGet (advanceTo doublePressWorld 120).meshes "button0").map
      (fun ms => ms.positionZ) = some 8 ∧
    (mapGet builtWorld.meshes "button0").map (fun ms => ms.positionZ) = some 10 ∧
    (8 : ℤ) ≠ 10 := by decide

/-- Claim C7, amended: the code tracks no per-entity feedback state at all.
A button press while reversions are already outstanding neither ignores nor
replaces them: it schedules two further independent reversion timers,
leaving at least three outstanding for the same entity. -/
theorem c7_transient_overlap_amended (w : World) (b : String)
    (hmain : (mapGet w.particleSystems "main").isSome = true)
    (hpend : 1 ≤ outstandingFeedbacks w b) :
    outstandingFeedbacks (onButtonPressed w b).1 b = outstandingFeedbacks w b + 2 ∧
    3 ≤ outstandingFeedbacks (onButtonPressed w b).1 b := by
  obtain ⟨cfg, hcfg⟩ := Option.isSome_iff_exists.mp hmain
  have h : outstandingFeedbacks (onButtonPressed w b).1 b =
      outstandingFeedbacks w b + 2 := by
    simp [onButtonPressed, onMechanicalElementActivated, hcfg, updateMeshZ,
      scheduleTimeout, setMeshScaling, outstandingFeedbacks, List.countP_append,
      List.countP_cons]
  exact ⟨h, by omega⟩

/-- Claim C7, witness: the amended statement applied to a world where one
press of `button0` is already pending. -/
theorem c7_transient_overlap_witness :
    outstandingFeedbacks (onButtonPressed pressedOnceWorld "button0").1 "button0" =
      outstandingFeedbacks pressedOnceWorld "button0" + 2 ∧
    3 ≤ outstandingFeedbacks (onButtonPressed pressedOnceWorld "button0").1 "button0" :=
  c7_transient_overlap_amended pressedOnceWorld "button0" (by decide) (by decide)

/-- Claim C8, counterexample.  The claim says button and mechanical
activations produce identical side-effect call shapes, including identical
transient-feedback scheduling, with no button-only code path.  A button
press schedules two transients (its own press-out plus the shared scale
revert) where a mechanical activation schedules one: the shapes differ, and
the press-in/press-out `position.z` code in `onButtonPressed` is a
button-only path. -/
theorem c8_button_parity_counterexample :
    (onButtonPressed builtWorld "button0").1.timeouts.map (fun p => transientShape p.2) =
      ["pressRevert", "scalingRevert"] ∧
    (onMechanicalElementActivated builtWorld "mechanical0").1.timeouts.map
      (fun p => transientShape p.2) = ["scalingRevert"] ∧
    (["pressRevert", "scalingRevert"] : List String) ≠ ["scalingRevert"] := by decide

/-- Claim C8, amended: the particle and spatial-audio requests of a button
press are exactly those of a mechanical activation of the same mesh (both
run through the shared `onMechanicalElementActivated`, with the same error
behaviour), and the scheduled transients differ only in one extra leading
press-out timer that is button-specific. -/
theorem c8_button_parity_amended (w : World) (b : String) :
    (onButtonPressed w b).1.requests = (onMechanicalElementActivated w b).1.requests ∧
    (onButtonPressed w b).2 = (onMechanicalElementActivated w b).2 ∧
    (onButtonPressed w b).1.timeouts =
      w.timeouts ++ [(w.now + 100, TimeoutAction.revertButtonZ b)] ++
        ((onMechanicalElementActivated w b).1.timeouts.drop w.timeouts.length) := by
  cases hmain : mapGet w.particleSystems "main" with
  | none =>
    refine ⟨?_, ?_, ?_⟩ <;>
      simp [onButtonPressed, onMechanicalElementActivated, hmain, updateMeshZ,
        scheduleTimeout, List.drop_length]
  | some cfg =>
    refine ⟨?_, ?_, ?_⟩ <;>
      simp [onButtonPressed, onMechanicalElementActivated, hmain, updateMeshZ,
        scheduleTimeout, setMeshScaling, List.drop_left]

/-- Claim C9, confirmed: the looping clip with keys `{0: 0, 100: 2*pi}` in
cycle mode is periodic with period 100 frame-units — advancing any frame by
exactly 100 returns `rotation.y` to the same value (hence equal modulo
2*pi); the raw keyframe endpoint differs from the start value by exactly
one full turn (coefficient 2 of pi); and the constructed `mechanical0`
carries exactly these keys. -/
theorem c9_clip_periodicity :
    (∀ f : ℚ, mechanicalRotationY (f + 100) = mechanicalRotationY f) ∧
    mechanicalRotationY 100 = mechanicalRotationY 0 ∧
    interpKeys mechanicalAnimKeys 100 - interpKeys mechanicalAnimKeys 0 = 2 ∧
    (mapGet builtWorld.meshes "mechanical0").map (fun ms => ms.animKeys) =
      some (some mechanicalAnimKeys) := by
  have hper : ∀ f : ℚ, mechanicalRotationY (f + 100) = mechanicalRotationY f := by
    intro f
    unfold mechanicalRotationY
    rw [cycleFrame_add_100]
  refine ⟨hper, ?_, ?_, rfl⟩
  · have h := hper 0
    norm_num at h
    exact h
  · norm_num [interpKeys, mechanicalAnimKeys]

/-- Claim C10, counterexample.  The claim says an operation referencing an
unknown id fails with `NotFound`.  Assigning the material looked up under
the unknown id `"missing"` raises no error at all: the lookup silently
yields `undefined`, the mesh's material becomes `undefined`, and execution
continues; and referencing an unknown particle-system id faults with a
`TypeError` at member access — in neither case a `NotFound` condition. -/
theorem c10_notfound_counterexample :
    (assignMaterialFromRegistry builtWorld "ground" "missing").2 = none ∧
    (assignMaterialFromRegistry builtWorld "ground" "missing").2 ≠ some JsErr.notFound ∧
    (mapGet (assignMaterialFromRegistry builtWorld "ground" "missing").1.meshes
      "ground").map (fun ms => ms.material) = some none ∧
    (onMechanicalElementActivated { builtWorld with particleSystems := [] }
      "mechanical0").2 = some (JsErr.typeError "cannot set properties of undefined") := by
  decide

/-- Claim C10, amended: unknown-id lookups go through `Map.get`.  The
material path silently assigns `undefined` and continues without error;
the particle path faults with a `TypeError` at member access.  No
`NotFound` condition exists in the code. -/
theorem c10_notfound_amended (w : World) (meshName id : String)
    (hmat : mapGet w.materials id = none)
    (hps : mapGet w.particleSystems "main" = none) :
    (assignMaterialFromRegistry w meshName id).2 = none ∧
    mapGet (assignMaterialFromRegistry w meshName id).1.meshes meshName =
      (mapGet w.meshes meshName).map (fun ms => { ms with material := none }) ∧
    (onMechanicalElementActivated w meshName).2 =
      some (JsErr.typeError "cannot set properties of undefined") ∧
    (onMechanicalElementActivated w meshName).2 ≠ some JsErr.notFound := by
  refine ⟨rfl, ?_, ?_, ?_⟩
  · simp [assignMaterialFromRegistry, mapGet_mapUpdate_self, materialRefOf, hmat]
  · simp [onMechanicalElementActivated, hps]
  · simp [onMechanicalElementActivated, hps]

/-- Claim C10, witness: the amended statement at the concrete world with an
empty particle registry, the ground mesh and the unknown id `"missing"`. -/
theorem c10_notfound_witness :
    (assignMaterialFromRegistry { builtWorld with particleSystems := [] } "ground"
      "missing").2 = none ∧
    mapGet (assignMaterialFromRegistry { builtWorld with particleSystems := [] } "ground"
      "missing").1.meshes "ground" =
      (mapGet ({ builtWorld with particleSystems := [] } : World).meshes "ground").map
        (fun ms => { ms with material := none }) ∧
    (onMechanicalElementActivated { builtWorld with particleSystems := [] } "ground").2 =
      some (JsErr.typeError "cannot set properties of undefined") ∧
    (onMechanicalElementActivated { builtWorld with particleSystems := [] } "ground").2 ≠
      some JsErr.notFound :=
  c10_notfound_amended { builtWorld with particleSystems := [] } "ground" "missing"
    (by decide) rfl

end MechanicalVR
